import Mathlib

/-!
Verification of `lib-src/seccomp-filter.c` (GNU Emacs seccomp policy
generator) against its specification.

The program builds a libseccomp policy: it initialises a filter context
with default action `SCMP_ACT_KILL_PROCESS`, sets three filter-wide
attributes, adds an allow-list of rules (each rule: action, syscall,
conjunction of argument comparators), and exports the policy to a binary
(BPF) file and a human-readable (PFC) file.

We embed the data model (comparators, rules, actions, policy context),
the exact rule table `main` constructs, the matching semantics of the
rule table (libseccomp evaluates a rule as the conjunction of its
comparators; distinct rules for the same syscall are alternatives), the
compile-time platform assumptions (`verify` static assertions), and the
export pipeline with its failure modes.

Platform constants are those of GNU/Linux on x86-64, the platform the
source pins down with its `verify` assertions (32-bit `int`, 64-bit
pointers, glibc flag values).
-/

namespace SeccompFilter

/-! ### Platform constants (GNU/Linux, x86-64, glibc) -/

def PROT_NONE : Nat := 0
def PROT_READ : Nat := 1
def PROT_WRITE : Nat := 2
def PROT_EXEC : Nat := 4

def MAP_SHARED : Nat := 1
def MAP_PRIVATE : Nat := 2
def MAP_FILE : Nat := 0
def MAP_FIXED : Nat := 16
def MAP_ANONYMOUS : Nat := 32
def MAP_DENYWRITE : Nat := 2048
def MAP_NORESERVE : Nat := 16384
def MAP_STACK : Nat := 131072

def O_RDONLY : Nat := 0
def O_WRONLY : Nat := 1
def O_RDWR : Nat := 2
def O_CREAT : Nat := 64
/-- `O_BINARY` is 0 on POSIX systems (Emacs defines it away). -/
def O_BINARY : Nat := 0
def O_DIRECTORY : Nat := 65536
def O_CLOEXEC : Nat := 524288
def O_PATH : Nat := 2097152

/-- `FUTEX_WAKE | FUTEX_PRIVATE_FLAG = 1 | 128`. -/
def FUTEX_WAKE_PRIVATE : Nat := 129

def STDIN_FILENO : Nat := 0
def TIOCGPGRP : Nat := 21519
def F_GETFL : Nat := 3
def PR_SET_NAME : Nat := 15
def CLOCK_REALTIME : Nat := 0

def EPERM : Nat := 1
def EACCES : Nat := 13

def CLONE_VM : Nat := 256
def CLONE_FS : Nat := 512
def CLONE_FILES : Nat := 1024
def CLONE_SIGHAND : Nat := 2048
def CLONE_THREAD : Nat := 65536
def CLONE_SYSVSEM : Nat := 262144
def CLONE_SETTLS : Nat := 524288
def CLONE_PARENT_SETTID : Nat := 1048576
def CLONE_CHILD_CLEARTID : Nat := 2097152

/-- Numeric value of `SCMP_ACT_KILL_PROCESS` (as passed to
`seccomp_attr_set` for `SCMP_FLTATR_ACT_BADARCH`). -/
def SCMP_ACT_KILL_PROCESS_VAL : Nat := 2147483648

/-- Bitwise complement of a 32-bit flag union, as `~x` computes on the
declared 32-bit `int` platform. -/
def compl32 (x : Nat) : Nat := 4294967295 ^^^ x

/-- Bitwise complement widened to 64 bits: in C, `~x` on `int` flags is
sign-extended when converted to the 64-bit `scmp_datum_t`, yielding the
64-bit complement of the flag union. -/
def compl64 (x : Nat) : Nat := 18446744073709551615 ^^^ x

/-! ### Data model: comparators, actions, rules -/

/-- Comparison operators used by the program (`SCMP_CMP_EQ`,
`SCMP_CMP_NE`, `SCMP_CMP_MASKED_EQ`). -/
inductive CmpOp where
  | eq
  | ne
  | maskedEq
  deriving DecidableEq, Repr

/-- `struct scmp_arg_cmp`: argument index, operator, two datums and the
comparison width (32 or 64 bits).  For `eq`/`ne` the comparison value is
`datumA`; for `maskedEq`, `datumA` is the mask and `datumB` the expected
value of the masked argument. -/
structure ArgCmp where
  arg : Nat
  op : CmpOp
  datumA : Nat
  datumB : Nat
  width : Nat
  deriving DecidableEq, Repr

/-- `SCMP_A<n>_32 (op, a, b)`: 32-bit comparator on argument `n`. -/
def cmp32 (n : Nat) (op : CmpOp) (a b : Nat) : ArgCmp :=
  ⟨n, op, a, b, 32⟩

/-- `SCMP_A<n>_64 (op, a, b)`: 64-bit comparator on argument `n`. -/
def cmp64 (n : Nat) (op : CmpOp) (a b : Nat) : ArgCmp :=
  ⟨n, op, a, b, 64⟩

/-- Evaluate one comparator on a syscall invocation's argument vector
(argument index to 64-bit value).  A 32-bit comparator compares the low
32 bits of the argument against the low 32 bits of the datum; masked
equality tests the argument only on the mask's bits. -/
def evalCmp (args : Nat → Nat) (c : ArgCmp) : Bool :=
  let m := 2 ^ c.width
  let v := args c.arg % m
  match c.op with
  | .eq => v == c.datumA % m
  | .ne => v != c.datumA % m
  | .maskedEq => (v &&& (c.datumA % m)) == c.datumB % m

/-- Filter actions used by the program: `SCMP_ACT_ALLOW`,
`SCMP_ACT_ERRNO (e)`, `SCMP_ACT_KILL_PROCESS`. -/
inductive Action where
  | allow
  | errno (e : Nat)
  | killProcess
  deriving DecidableEq, Repr

/-- A libseccomp rule as added by the `RULE` macro: an action, a syscall
identifier and the rule's comparator set. -/
structure Rule where
  action : Action
  syscall : String
  cmps : List ArgCmp
  deriving DecidableEq, Repr

/-- A rule matches an invocation iff the syscall identifier matches and
every comparator of the rule evaluates true (conjunction). -/
def ruleMatches (r : Rule) (sc : String) (args : Nat → Nat) : Bool :=
  r.syscall == sc && r.cmps.all (evalCmp args)

/-- Effective action of a rule table on one invocation: the action of a
matching rule if any matches, the default action otherwise.  Distinct
rules for one syscall are disjoint alternatives in the table `main`
builds, so taking the first match realises their disjunction. -/
def policyAction (rules : List Rule) (d : Action) (sc : String)
    (args : Nat → Nat) : Action :=
  match rules.find? (fun r => ruleMatches r sc args) with
  | some r => r.action
  | none => d

/-! ### The rule table built by `main` (lines 163-326) -/

def mmapRule1 : Rule :=
  ⟨.allow, "mmap",
    [cmp32 2 .maskedEq (compl32 (PROT_NONE ||| PROT_READ ||| PROT_WRITE)) 0,
     cmp32 3 .maskedEq
       (compl32 (MAP_PRIVATE ||| MAP_FILE ||| MAP_ANONYMOUS ||| MAP_FIXED
         ||| MAP_DENYWRITE ||| MAP_STACK ||| MAP_NORESERVE)) 0]⟩

def mmapRule2 : Rule :=
  ⟨.allow, "mmap",
    [cmp32 2 .maskedEq (compl32 (PROT_NONE ||| PROT_READ ||| PROT_EXEC)) 0,
     cmp32 3 .maskedEq
       (compl32 (MAP_PRIVATE ||| MAP_ANONYMOUS ||| MAP_FIXED
         ||| MAP_DENYWRITE)) 0]⟩

def openRule : Rule :=
  ⟨.allow, "open",
    [cmp32 1 .maskedEq
      (compl32 (O_RDONLY ||| O_BINARY ||| O_CLOEXEC ||| O_PATH
        ||| O_DIRECTORY)) 0]⟩

def openatRule : Rule :=
  ⟨.allow, "openat",
    [cmp32 2 .maskedEq
      (compl32 (O_RDONLY ||| O_BINARY ||| O_CLOEXEC ||| O_PATH
        ||| O_DIRECTORY)) 0]⟩

def prlimitAllowRule : Rule :=
  ⟨.allow, "prlimit64",
    [cmp32 0 .eq 0 0, cmp64 2 .eq 0 0]⟩

def prlimitErrnoRule : Rule :=
  ⟨.errno EPERM, "prlimit64",
    [cmp32 0 .eq 0 0, cmp64 2 .ne 0 0]⟩

def socketRule : Rule := ⟨.errno EACCES, "socket", []⟩

def clockGettimeRule : Rule :=
  ⟨.allow, "clock_gettime", [cmp32 0 .eq CLOCK_REALTIME 0]⟩

def cloneRule : Rule :=
  ⟨.allow, "clone",
    [cmp64 0 .maskedEq
      (compl64 (CLONE_VM ||| CLONE_FS ||| CLONE_FILES ||| CLONE_SYSVSEM
        ||| CLONE_SIGHAND ||| CLONE_THREAD ||| CLONE_SETTLS
        ||| CLONE_PARENT_SETTID ||| CLONE_CHILD_CLEARTID)) 0]⟩

/-- The complete rule table, in the order `main` adds the rules. -/
def emacsRules : List Rule :=
  [⟨.allow, "exit", []⟩,
   ⟨.allow, "exit_group", []⟩,
   mmapRule1,
   mmapRule2,
   ⟨.allow, "munmap", []⟩,
   ⟨.allow, "mprotect",
     [cmp32 2 .maskedEq
       (compl32 (PROT_NONE ||| PROT_READ ||| PROT_WRITE)) 0]⟩,
   ⟨.allow, "futex", [cmp32 1 .eq FUTEX_WAKE_PRIVATE 0]⟩,
   ⟨.allow, "brk", []⟩,
   ⟨.allow, "uname", []⟩,
   ⟨.allow, "getuid", []⟩,
   ⟨.allow, "geteuid", []⟩,
   ⟨.allow, "getpid", []⟩,
   ⟨.allow, "getpgrp", []⟩,
   ⟨.allow, "read", []⟩,
   ⟨.allow, "write", []⟩,
   ⟨.allow, "close", []⟩,
   ⟨.allow, "lseek", []⟩,
   ⟨.allow, "dup", []⟩,
   ⟨.allow, "dup2", []⟩,
   ⟨.allow, "fstat", []⟩,
   ⟨.allow, "access", []⟩,
   ⟨.allow, "faccessat", []⟩,
   ⟨.allow, "stat", []⟩,
   ⟨.allow, "stat64", []⟩,
   ⟨.allow, "lstat", []⟩,
   ⟨.allow, "lstat64", []⟩,
   ⟨.allow, "fstatat64", []⟩,
   ⟨.allow, "newfstatat", []⟩,
   ⟨.allow, "readlink", []⟩,
   ⟨.allow, "readlinkat", []⟩,
   ⟨.allow, "getcwd", []⟩,
   openRule,
   openatRule,
   ⟨.allow, "ioctl",
     [cmp32 0 .eq STDIN_FILENO 0, cmp32 1 .eq TIOCGPGRP 0]⟩,
   ⟨.allow, "fcntl", [cmp32 1 .eq F_GETFL 0]⟩,
   ⟨.allow, "fcntl64", [cmp32 1 .eq F_GETFL 0]⟩,
   ⟨.allow, "getrandom", []⟩,
   ⟨.allow, "umask", []⟩,
   ⟨.allow, "pipe", []⟩,
   ⟨.allow, "pipe2", []⟩,
   ⟨.allow, "getrlimit", []⟩,
   prlimitAllowRule,
   prlimitErrnoRule,
   ⟨.allow, "sigaction", []⟩,
   ⟨.allow, "rt_sigaction", []⟩,
   ⟨.allow, "sigprocmask", []⟩,
   ⟨.allow, "rt_sigprocmask", []⟩,
   clockGettimeRule,
   ⟨.allow, "time", []⟩,
   ⟨.allow, "gettimeofday", []⟩,
   ⟨.allow, "timer_create", []⟩,
   ⟨.allow, "timerfd_create", []⟩,
   cloneRule,
   ⟨.allow, "sigaltstack", []⟩,
   ⟨.allow, "set_robust_list", []⟩,
   ⟨.allow, "prctl", [cmp32 0 .eq PR_SET_NAME 0]⟩,
   ⟨.allow, "eventfd", []⟩,
   ⟨.allow, "eventfd2", []⟩,
   ⟨.allow, "wait4", []⟩,
   ⟨.allow, "poll", []⟩,
   socketRule]

/-- Default action configured by `seccomp_init (SCMP_ACT_KILL_PROCESS)`:
any unhandled syscall aborts the Emacs process. -/
def emacsDefault : Action := .killProcess

/-- Effective action of the generated policy on a syscall invocation. -/
def emacsAction (sc : String) (args : Nat → Nat) : Action :=
  policyAction emacsRules emacsDefault sc args

/-! ### Filter attributes and the policy context -/

/-- The filter-wide attributes `main` configures
(`SCMP_FLTATR_ACT_BADARCH`, `SCMP_FLTATR_CTL_NNP`,
`SCMP_FLTATR_CTL_TSYNC`). -/
inductive FilterAttr where
  | actBadArch
  | ctlNnp
  | ctlTsync
  deriving DecidableEq, Repr

/-- The libseccomp filter context (`scmp_filter_ctx`): filter-wide
attributes, the default action fixed by `seccomp_init`, and the rule
table. -/
structure PolicyContext where
  attrs : List (FilterAttr × Nat)
  defaultAction : Action
  rules : List Rule
  deriving DecidableEq, Repr

/-- `seccomp_init (d)`: fresh context with default action `d`, no
attributes configured and an empty rule table. -/
def seccompInit (d : Action) : PolicyContext := ⟨[], d, []⟩

/-- `seccomp_attr_set` (via the `set_attribute` wrapper): records one
filter-wide attribute; it touches neither the rule table nor the default
action. -/
def setAttribute (c : PolicyContext) (a : FilterAttr) (v : Nat) :
    PolicyContext :=
  { c with attrs := c.attrs ++ [(a, v)] }

/-- The attribute-configuration step of `main` (lines 152-154): bad-arch
action kill-process, no-new-privileges on, thread-group sync on. -/
def configureAttributes (c : PolicyContext) : PolicyContext :=
  setAttribute
    (setAttribute
      (setAttribute c .actBadArch SCMP_ACT_KILL_PROCESS_VAL)
      .ctlNnp 1)
    .ctlTsync 1

/-! ### Platform assumptions (`verify` static assertions) -/

def CHAR_BIT : Nat := 8
def SIZEOF_INT : Nat := 4
def SIZEOF_VOID_P : Nat := 8
def INT_MIN : Int := -2147483648
def INT_MAX : Int := 2147483647
def INT32_MIN : Int := -2147483648
def INT32_MAX : Int := 2147483647
/-- `(uintptr_t) NULL`: the null pointer's bit pattern. -/
def NULL_REPR : Nat := 0

/-- The `verify` static assertions of `seccomp-filter.c` (lines 156-160,
169-170, 238-240), in source order.  `verify` is a compile-time
assertion: if any entry is false the program does not compile at all. -/
def platformAssumptions : List Bool :=
  [CHAR_BIT == 8,
   SIZEOF_INT == 4 && INT_MIN == INT32_MIN && INT_MAX == INT32_MAX,
   SIZEOF_VOID_P == 8,
   NULL_REPR == 0,
   MAP_PRIVATE != 0,
   MAP_SHARED != 0,
   O_WRONLY != 0,
   O_RDWR != 0,
   O_CREAT != 0]

/-! ### Runtime trace of `main` -/

/-- Observable side-effecting steps `main` performs, in order. -/
inductive Event where
  | attrSet (a : FilterAttr) (v : Nat)
  | ruleAdd (r : Rule)
  | fileOpen (n : Nat)
  | exportWrite (n : Nat)
  | fileClose (n : Nat)
  deriving DecidableEq, Repr

def Event.isAttrSet : Event → Bool
  | .attrSet _ _ => true
  | _ => false

def Event.isRuleAdd : Event → Bool
  | .ruleAdd _ => true
  | _ => false

def Event.isFileOpen : Event → Bool
  | .fileOpen _ => true
  | _ => false

def Event.isExportStep : Event → Bool
  | .fileOpen _ => true
  | .exportWrite _ => true
  | .fileClose _ => true
  | _ => false

/-- Attribute-configuration events (lines 152-154). -/
def attrEvents : List Event :=
  [.attrSet .actBadArch SCMP_ACT_KILL_PROCESS_VAL,
   .attrSet .ctlNnp 1,
   .attrSet .ctlTsync 1]

/-- Rule-addition events (lines 163-326), one per `RULE` invocation. -/
def ruleEvents : List Event := emacsRules.map Event.ruleAdd

/-- Export events (lines 328-329): for each of the two output files,
`export_filter` opens it, writes it and closes it; the BPF file (0) is
fully processed before the PFC file (1). -/
def exportEvents : List Event :=
  [.fileOpen 0, .exportWrite 0, .fileClose 0,
   .fileOpen 1, .exportWrite 1, .fileClose 1]

/-- The runtime steps of a successful run of `main`. -/
def mainTrace : List Event := attrEvents ++ ruleEvents ++ exportEvents

/-- `main` gated by its static assertions: since `verify` is checked at
compile time, a false platform assumption means the binary is never
produced, so no runtime step at all occurs; otherwise the linear trace
runs. -/
def runMain (a : List Bool) : List Event :=
  if a.all id then mainTrace else []

/-! ### Export pipeline -/

/-- The compiled BPF artifact.  Modelled from the spec: the external
filter compilation library's `compileToBinary` is out of scope; per the
spec it is a deterministic function of the context, so the artifact is
modelled as the context it was compiled from. -/
structure BpfArtifact where
  policy : PolicyContext
  deriving DecidableEq, Repr

/-- The human-readable PFC artifact.  Modelled from the spec: the
external library's `compileToText`, a deterministic function of the
context. -/
structure PfcArtifact where
  policy : PolicyContext
  deriving DecidableEq, Repr

/-- `seccomp_export_bpf`, modelled from the spec as a deterministic
function of the policy context. -/
def seccompExportBpf (c : PolicyContext) : BpfArtifact := ⟨c⟩

/-- `seccomp_export_pfc`, modelled from the spec as a deterministic
function of the policy context. -/
def seccompExportPfc (c : PolicyContext) : PfcArtifact := ⟨c⟩

/-- Environment oracle for the six fallible I/O steps of the export
phase (open/write/close for each of the two files). -/
structure ExportOracle where
  openBpf : Bool
  writeBpf : Bool
  closeBpf : Bool
  openPfc : Bool
  writePfc : Bool
  closePfc : Bool
  deriving DecidableEq, Repr

/-- `export_filter` (lines 119-134): open the output file, run the
export function on the context, close the file; any failure calls
`fail`, which exits nonzero (modelled as `none`). -/
def exportFilter {α : Type} (c : PolicyContext) (f : PolicyContext → α)
    (openOk writeOk closeOk : Bool) : Option α :=
  if openOk then
    if writeOk then
      if closeOk then some (f c) else none
    else none
  else none

/-- The export phase of `main` (lines 328-329): export the BPF file,
then the PFC file, from the same context; first failure exits with
status 1 (`EXIT_FAILURE`); falling off the end of `main` returns 0.
Result: (exit status, fully-produced BPF artifact, fully-produced PFC
artifact). -/
def runExportPhase (c : PolicyContext) (o : ExportOracle) :
    Nat × Option BpfArtifact × Option PfcArtifact :=
  match exportFilter c seccompExportBpf o.openBpf o.writeBpf o.closeBpf with
  | none => (1, none, none)
  | some b =>
    match exportFilter c seccompExportPfc o.openPfc o.writePfc o.closePfc with
    | none => (1, some b, none)
    | some p => (0, some b, some p)

/-! ### Satisfying assignment for each rule's comparator set -/

/-- A canonical satisfying argument assignment for a rule: give each
constrained argument index the value its comparator asks for (`eq`: the
datum; `ne`: the datum plus one; `maskedEq` with expected value 0: the
expected value itself), and 0 elsewhere. -/
def chooseArgs (r : Rule) : Nat → Nat := fun i =>
  match r.cmps.find? (fun c => c.arg == i) with
  | some c =>
    match c.op with
    | .eq => c.datumA
    | .ne => c.datumA + 1
    | .maskedEq => c.datumB
  | none => 0

/-! ### Helper lemmas on the matching semantics -/

/-- The rules of a table that target one syscall. -/
def rulesFor (sc : String) (l : List Rule) : List Rule :=
  l.filter (fun r => r.syscall == sc)

theorem ruleMatches_eq_false_of_syscall_ne {r : Rule} {sc : String}
    (args : Nat → Nat) (h : (r.syscall == sc) = false) :
    ruleMatches r sc args = false := by
  simp [ruleMatches, h]

theorem find?_rulesFor (sc : String) (args : Nat → Nat) (l : List Rule) :
    (rulesFor sc l).find? (fun r => ruleMatches r sc args)
      = l.find? (fun r => ruleMatches r sc args) := by
  induction l with
  | nil => rfl
  | cons r t ih =>
    rcases hsc : (r.syscall == sc) with _ | _
    · have hm : ruleMatches r sc args = false :=
        ruleMatches_eq_false_of_syscall_ne args hsc
      rw [rulesFor, List.filter_cons, if_neg (by simp [hsc]),
        List.find?_cons, hm]
      exact ih
    · rw [rulesFor, List.filter_cons, if_pos (by simp [hsc])]
      rw [List.find?_cons, List.find?_cons]
      cases hm : ruleMatches r sc args
      · exact ih
      · rfl

theorem policyAction_rulesFor (l : List Rule) (d : Action) (sc : String)
    (args : Nat → Nat) :
    policyAction l d sc args = policyAction (rulesFor sc l) d sc args := by
  unfold policyAction
  rw [find?_rulesFor]

theorem policyAction_eq_default {l : List Rule} {d : Action} {sc : String}
    {args : Nat → Nat} (h : ∀ r ∈ l, ruleMatches r sc args = false) :
    policyAction l d sc args = d := by
  unfold policyAction
  rw [List.find?_eq_none.mpr (by simpa using h)]

theorem ne_zero_of_testBit {x : Nat} {i : Nat} (h : x.testBit i = true) :
    x ≠ 0 := by
  intro hx
  rw [hx, Nat.zero_testBit] at h
  exact Bool.false_ne_true h

theorem testBit_land_mod32 (x m i : Nat) (hi : i < 32) :
    ((x % 2 ^ 32) &&& m).testBit i = (x.testBit i && m.testBit i) := by
  rw [Nat.testBit_land, Nat.testBit_mod_two_pow]
  simp [hi]

/-- A masked-equality-with-zero comparator holds iff the (width-truncated)
argument has no bit in common with the mask. -/
theorem land_eq_zero_iff (x m : Nat) :
    (x &&& m = 0) ↔ ∀ i, x.testBit i = true → m.testBit i = false := by
  constructor
  · intro h i hx
    have := congrArg (Nat.testBit · i) h
    simp only [Nat.testBit_land, Nat.zero_testBit] at this
    rcases hm : m.testBit i with _ | _
    · rfl
    · rw [hx, hm] at this
      simp at this
  · intro h
    apply Nat.eq_of_testBit_eq
    intro i
    rw [Nat.testBit_land, Nat.zero_testBit]
    rcases hx : x.testBit i with _ | _
    · rfl
    · rw [h i hx]
      rfl

theorem evalCmp_masked32 (args : Nat → Nat) (n M : Nat) :
    evalCmp args (cmp32 n .maskedEq M 0)
      = ((args n % 2 ^ 32) &&& (M % 2 ^ 32) == 0) := by
  show ((args n % 2 ^ 32) &&& (M % 2 ^ 32) == 0 % 2 ^ 32) = _
  rw [Nat.zero_mod]

theorem evalCmp_masked32_false {args : Nat → Nat} {n M i : Nat}
    (hi : i < 32) (ha : (args n).testBit i = true)
    (hm : (M % 2 ^ 32).testBit i = true) :
    evalCmp args (cmp32 n .maskedEq M 0) = false := by
  rw [evalCmp_masked32]
  have hb : ((args n % 2 ^ 32) &&& (M % 2 ^ 32)).testBit i = true := by
    rw [testBit_land_mod32 _ _ i hi, ha, hm]
    rfl
  exact beq_eq_false_iff_ne.mpr (ne_zero_of_testBit hb)

/-- A masked-equality comparator against the 32-bit complement of a flag
union asks exactly that the argument have no bit set outside the
union. -/
theorem masked32_zero_iff (x U : Nat) :
    ((x % 2 ^ 32) &&& (compl32 U % 2 ^ 32) = 0) ↔
      (∀ i, (x % 2 ^ 32).testBit i = true → U.testBit i = true) := by
  have h32 : (4294967295 : Nat) = 2 ^ 32 - 1 := by norm_num
  rw [land_eq_zero_iff]
  constructor
  · intro h i hx
    have hi : i < 32 := by
      by_contra hge
      rw [Nat.testBit_mod_two_pow] at hx
      simp [hge] at hx
    have hm := h i hx
    rw [Nat.testBit_mod_two_pow] at hm
    unfold compl32 at hm
    rw [Nat.testBit_xor, h32, Nat.testBit_two_pow_sub_one] at hm
    simpa [hi] using hm
  · intro h i hx
    have hi : i < 32 := by
      by_contra hge
      rw [Nat.testBit_mod_two_pow] at hx
      simp [hge] at hx
    have hU := h i hx
    rw [Nat.testBit_mod_two_pow]
    unfold compl32
    rw [Nat.testBit_xor, h32, Nat.testBit_two_pow_sub_one]
    simp [hi, hU]

theorem policyAction_cons_match {r : Rule} {l : List Rule} {d : Action}
    {sc : String} {args : Nat → Nat} (h : ruleMatches r sc args = true) :
    policyAction (r :: l) d sc args = r.action := by
  simp [policyAction, List.find?_cons, h]

theorem policyAction_cons_skip {r : Rule} {l : List Rule} {d : Action}
    {sc : String} {args : Nat → Nat} (h : ruleMatches r sc args = false) :
    policyAction (r :: l) d sc args = policyAction l d sc args := by
  simp [policyAction, List.find?_cons, h]

/-! ### The claims -/

/-- Claim C1: an `mmap` invocation whose protection argument (argument
index 2) has both the `PROT_WRITE` bit (bit 1) and the `PROT_EXEC` bit
(bit 2) set fails the masked-equality comparator of each of the two
`mmap` allow rules, so the invocation resolves to the default
kill-process action. -/
theorem mmap_write_exec_killed (args : Nat → Nat)
    (hw : (args 2).testBit 1 = true) (hx : (args 2).testBit 2 = true) :
    ruleMatches mmapRule1 "mmap" args = false ∧
    ruleMatches mmapRule2 "mmap" args = false ∧
    emacsAction "mmap" args = .killProcess := by
  have e1 : evalCmp args
      (cmp32 2 .maskedEq
        (compl32 (PROT_NONE ||| PROT_READ ||| PROT_WRITE)) 0) = false :=
    evalCmp_masked32_false (by norm_num) hx (by decide)
  have e2 : evalCmp args
      (cmp32 2 .maskedEq
        (compl32 (PROT_NONE ||| PROT_READ ||| PROT_EXEC)) 0) = false :=
    evalCmp_masked32_false (by norm_num) hw (by decide)
  have m1 : ruleMatches mmapRule1 "mmap" args = false := by
    simp only [ruleMatches, mmapRule1, List.all_cons, List.all_nil, e1]
    simp
  have m2 : ruleMatches mmapRule2 "mmap" args = false := by
    simp only [ruleMatches, mmapRule2, List.all_cons, List.all_nil, e2]
    simp
  refine ⟨m1, m2, ?_⟩
  show policyAction emacsRules emacsDefault "mmap" args = Action.killProcess
  rw [policyAction_rulesFor]
  have hr : rulesFor "mmap" emacsRules = [mmapRule1, mmapRule2] := by decide
  rw [hr]
  apply policyAction_eq_default
  intro r hm
  rcases List.mem_cons.mp hm with rfl | hm
  · exact m1
  rcases List.mem_cons.mp hm with rfl | hm
  · exact m2
  exact absurd hm (List.not_mem_nil r)

/-- Witness for C1: `mmap` with protection `PROT_READ | PROT_WRITE |
PROT_EXEC = 7` is killed. -/
theorem mmap_write_exec_killed_witness :
    ruleMatches mmapRule1 "mmap" (fun i => if i = 2 then 7 else 0) = false ∧
    ruleMatches mmapRule2 "mmap" (fun i => if i = 2 then 7 else 0) = false ∧
    emacsAction "mmap" (fun i => if i = 2 then 7 else 0) = .killProcess :=
  mmap_write_exec_killed (fun i => if i = 2 then 7 else 0)
    (by decide) (by decide)

/-- Claim C2: when no rule of the table matches an invocation, the
policy's effective action is the configured default action, and that
default is kill-process. -/
theorem unmatched_syscall_killed (sc : String) (args : Nat → Nat)
    (h : ∀ r ∈ emacsRules, ruleMatches r sc args = false) :
    emacsAction sc args = emacsDefault ∧ emacsDefault = .killProcess :=
  ⟨policyAction_eq_default h, rfl⟩

/-- Witness for C2: `execve` has no rule, so it is killed. -/
theorem unmatched_syscall_killed_witness :
    emacsAction "execve" (fun _ => 0) = emacsDefault ∧
    emacsDefault = .killProcess :=
  unmatched_syscall_killed "execve" (fun _ => 0) (by decide)

/-- Claim C3: a rule matches an invocation iff the syscall identifier
equals the rule's and every comparator of the rule evaluates true
(conjunction); a rule with no comparators matches every invocation of
its syscall; and when a table's rules are alternatives, an invocation
matched by some rule receives the action of a matching rule, never the
default. -/
theorem rule_matching_semantics :
    (∀ (r : Rule) (sc : String) (args : Nat → Nat),
      ruleMatches r sc args = true ↔
        (r.syscall = sc ∧ ∀ c ∈ r.cmps, evalCmp args c = true))
    ∧ (∀ (r : Rule) (sc : String) (args : Nat → Nat), r.cmps = [] →
        ruleMatches r sc args = (r.syscall == sc))
    ∧ (∀ (l : List Rule) (d : Action) (sc : String) (args : Nat → Nat),
        (∃ r ∈ l, ruleMatches r sc args = true) →
        ∃ r ∈ l, ruleMatches r sc args = true ∧
          policyAction l d sc args = r.action) := by
  refine ⟨?_, ?_, ?_⟩
  · intro r sc args
    simp [ruleMatches, List.all_eq_true]
  · intro r sc args h
    simp [ruleMatches, h]
  · intro l d sc args h
    have hs : (l.find? (fun r => ruleMatches r sc args)).isSome = true := by
      rw [List.find?_isSome]
      simpa using h
    obtain ⟨r0, hr0⟩ := Option.isSome_iff_exists.mp hs
    have hp : ruleMatches r0 sc args = true := by
      have hq := List.find?_some hr0
      simpa using hq
    refine ⟨r0, List.mem_of_find?_eq_some hr0, hp, ?_⟩
    unfold policyAction
    rw [hr0]

/-- Witness for C3, instantiated on the comparator-free `socket` rule. -/
theorem rule_matching_semantics_witness :
    (ruleMatches socketRule "socket" (fun _ => 0) = true ↔
      (socketRule.syscall = "socket" ∧
        ∀ c ∈ socketRule.cmps, evalCmp (fun _ => 0) c = true))
    ∧ ruleMatches socketRule "socket" (fun _ => 0)
        = (socketRule.syscall == "socket")
    ∧ ∃ r ∈ [socketRule], ruleMatches r "socket" (fun _ => 0) = true ∧
        policyAction [socketRule] .killProcess "socket" (fun _ => 0)
          = r.action :=
  ⟨rule_matching_semantics.1 socketRule "socket" (fun _ => 0),
   rule_matching_semantics.2.1 socketRule "socket" (fun _ => 0) rfl,
   rule_matching_semantics.2.2 [socketRule] .killProcess "socket"
     (fun _ => 0) ⟨socketRule, List.mem_singleton.mpr rfl, by decide⟩⟩

/-- Claim C4: if any declared platform assumption is false, compilation
aborts and no runtime step occurs at all — in particular no rule is
added and no output file is opened; on the real platform (where all
assumptions hold) the run is the linear trace: attribute configuration,
then rule-table construction, then the export of both artifacts, with
the platform invariants verified (at compile time) before any of it. -/
theorem pipeline_order_and_abort :
    (∀ a : List Bool, (∃ b ∈ a, b = false) →
      runMain a = [] ∧
      ∀ e ∈ runMain a, e.isRuleAdd = false ∧ e.isFileOpen = false)
    ∧ (∀ a : List Bool, runMain a ≠ [] → a.all id = true)
    ∧ runMain platformAssumptions = attrEvents ++ ruleEvents ++ exportEvents
    ∧ attrEvents.all Event.isAttrSet = true
    ∧ ruleEvents.all Event.isRuleAdd = true
    ∧ exportEvents.all Event.isExportStep = true := by
  refine ⟨?_, ?_, ?_, by decide, by decide, by decide⟩
  · intro a h
    have ha : a.all id = false := by
      obtain ⟨b, hb, rfl⟩ := h
      rcases hf : a.all id with _ | _
      · rfl
      · exact absurd (List.all_eq_true.mp hf false hb) (by simp)
    constructor
    · simp [runMain, ha]
    · intro e he
      rw [runMain, ha] at he
      exact absurd he (List.not_mem_nil e)
  · intro a h
    rcases hf : a.all id with _ | _
    · exact absurd (by simp [runMain, hf]) h
    · rfl
  · have hall : platformAssumptions.all id = true := by decide
    simp [runMain, hall, mainTrace]

/-- Witness for C4: forcing one assumption false yields an empty run;
the real assumption set yields a nonempty one, hence all invariants
verified. -/
theorem pipeline_order_and_abort_witness :
    (runMain [false] = [] ∧
      ∀ e ∈ runMain [false], e.isRuleAdd = false ∧ e.isFileOpen = false)
    ∧ platformAssumptions.all id = true :=
  ⟨pipeline_order_and_abort.1 [false]
      ⟨false, List.mem_singleton.mpr rfl, rfl⟩,
   pipeline_order_and_abort.2.1 platformAssumptions (by decide)⟩

/-- Claim C7: every rule of the table has a satisfiable comparator
conjunction: some argument assignment makes all of its comparators
evaluate true. -/
theorem rules_satisfiable :
    ∀ r ∈ emacsRules, ∃ a : Nat → Nat, r.cmps.all (evalCmp a) = true := by
  have h : emacsRules.all
      (fun r => r.cmps.all (evalCmp (chooseArgs r))) = true := by decide
  intro r hr
  exact ⟨chooseArgs r, List.all_eq_true.mp h r hr⟩

/-- Witness for C7: the first `mmap` rule's comparators are jointly
satisfiable. -/
theorem rules_satisfiable_witness :
    ∃ a : Nat → Nat, mmapRule1.cmps.all (evalCmp a) = true :=
  rules_satisfiable mmapRule1 (by decide)

/-- Claim C8: the attribute-configuration step records exactly the three
filter-wide attributes (bad-architecture action kill-process,
no-new-privileges on, thread-group sync on) and mutates only the
attributes: the rule table and default action are untouched, and from
the freshly initialised context the rule table is still empty. -/
theorem attribute_configurator_frame :
    (∀ c : PolicyContext,
      (configureAttributes c).rules = c.rules ∧
      (configureAttributes c).defaultAction = c.defaultAction ∧
      (configureAttributes c).attrs = c.attrs ++
        [(.actBadArch, SCMP_ACT_KILL_PROCESS_VAL),
         (.ctlNnp, 1), (.ctlTsync, 1)])
    ∧ (configureAttributes (seccompInit .killProcess)).attrs =
        [(.actBadArch, SCMP_ACT_KILL_PROCESS_VAL),
         (.ctlNnp, 1), (.ctlTsync, 1)]
    ∧ (configureAttributes (seccompInit .killProcess)).rules = [] := by
  refine ⟨?_, by decide, by decide⟩
  intro c
  refine ⟨rfl, rfl, ?_⟩
  simp [configureAttributes, setAttribute]

/-- Counterexample to claim C5 as stated: `prlimit64` with a non-null
new-limit argument (argument 2 = 1) but a pid argument of 1 (not the
current process) matches neither `prlimit64` rule — both require the
pid argument to equal 0 — so it is killed, not given an errno result. -/
theorem prlimit_nonself_counterexample :
    emacsAction "prlimit64" (fun _ => 1) = .killProcess ∧
    ∀ e : Nat, Action.killProcess ≠ Action.errno e :=
  ⟨by decide, fun _ h => Action.noConfusion h⟩

/-- Claim C5 (amended): every resource-limit change targeting the
current process (pid argument 0 in 32 bits) with a non-null new-limit
argument gets the recoverable error `EPERM`; every socket creation,
whatever its arguments, gets the recoverable error `EACCES`; and every
syscall invocation covered by no rule is killed. -/
theorem probed_disallowed_errno :
    (∀ args : Nat → Nat, args 0 % 2 ^ 32 = 0 → args 2 % 2 ^ 64 ≠ 0 →
      emacsAction "prlimit64" args = .errno EPERM)
    ∧ (∀ args : Nat → Nat, emacsAction "socket" args = .errno EACCES)
    ∧ (∀ (sc : String) (args : Nat → Nat),
        (∀ r ∈ emacsRules, ruleMatches r sc args = false) →
        emacsAction sc args = .killProcess) := by
  refine ⟨?_, ?_, ?_⟩
  · intro args h0 h2
    have a0 : evalCmp args (cmp32 0 .eq 0 0) = true := by
      show (args 0 % 2 ^ 32 == 0 % 2 ^ 32) = true
      rw [Nat.zero_mod, h0]
      rfl
    have a2eq : evalCmp args (cmp64 2 .eq 0 0) = false := by
      show (args 2 % 2 ^ 64 == 0 % 2 ^ 64) = false
      rw [Nat.zero_mod]
      exact beq_eq_false_iff_ne.mpr h2
    have a2ne : evalCmp args (cmp64 2 .ne 0 0) = true := by
      show (args 2 % 2 ^ 64 != 0 % 2 ^ 64) = true
      rw [Nat.zero_mod]
      simpa [bne_iff_ne] using h2
    have mA : ruleMatches prlimitAllowRule "prlimit64" args = false := by
      simp only [ruleMatches, prlimitAllowRule, List.all_cons, List.all_nil,
        a0, a2eq]
      simp
    have mE : ruleMatches prlimitErrnoRule "prlimit64" args = true := by
      simp only [ruleMatches, prlimitErrnoRule, List.all_cons, List.all_nil,
        a0, a2ne]
      decide
    show policyAction emacsRules emacsDefault "prlimit64" args
      = Action.errno EPERM
    rw [policyAction_rulesFor]
    have hr : rulesFor "prlimit64" emacsRules
        = [prlimitAllowRule, prlimitErrnoRule] := by decide
    rw [hr, policyAction_cons_skip mA, policyAction_cons_match mE]
    rfl
  · intro args
    have mS : ruleMatches socketRule "socket" args = true := by
      simp [ruleMatches, socketRule]
    show policyAction emacsRules emacsDefault "socket" args
      = Action.errno EACCES
    rw [policyAction_rulesFor]
    have hr : rulesFor "socket" emacsRules = [socketRule] := by decide
    rw [hr, policyAction_cons_match mS]
    rfl
  · intro sc args h
    exact policyAction_eq_default h

/-- Witness for C5 (amended): prlimit64 at pid 0 with new-limit 1 gets
`EPERM`; socket with first argument 2 (`AF_INET`) gets `EACCES`; the
uncovered `execve` is killed. -/
theorem probed_disallowed_errno_witness :
    emacsAction "prlimit64" (fun i => if i = 2 then 1 else 0)
      = .errno EPERM ∧
    emacsAction "socket" (fun _ => 2) = .errno EACCES ∧
    emacsAction "execve" (fun _ => 0) = .killProcess :=
  ⟨probed_disallowed_errno.1 (fun i => if i = 2 then 1 else 0)
     (by decide) (by decide),
   probed_disallowed_errno.2.1 (fun _ => 2),
   probed_disallowed_errno.2.2 "execve" (fun _ => 0) (by decide)⟩

/-- Claim C6: the export phase produces both artifacts from the same
context (the text artifact is only attempted, and only succeeds, with
the binary artifact already produced from that same context); any
open/write/close failure in either sub-step makes the exit status
nonzero; and an exit status of 0 means both artifacts were fully
written. -/
theorem export_pipeline_integrity (c : PolicyContext) (o : ExportOracle) :
    ((runExportPhase c o).1 = 0 →
      (runExportPhase c o).2.1 = some (seccompExportBpf c) ∧
      (runExportPhase c o).2.2 = some (seccompExportPfc c))
    ∧ ((runExportPhase c o).2.2.isSome = true →
      (runExportPhase c o).2.1 = some (seccompExportBpf c))
    ∧ ((o.openBpf = false ∨ o.writeBpf = false ∨ o.closeBpf = false ∨
        o.openPfc = false ∨ o.writePfc = false ∨ o.closePfc = false) →
      (runExportPhase c o).1 ≠ 0) := by
  obtain ⟨b1, b2, b3, b4, b5, b6⟩ := o
  rcases b1 <;> rcases b2 <;> rcases b3 <;> rcases b4 <;> rcases b5 <;>
    rcases b6 <;> simp [runExportPhase, exportFilter]

/-- Witness for C6: with all I/O succeeding both artifacts are written;
with the first open failing the exit status is nonzero. -/
theorem export_pipeline_integrity_witness :
    ((runExportPhase (seccompInit .killProcess)
        ⟨true, true, true, true, true, true⟩).2.1
      = some (seccompExportBpf (seccompInit .killProcess)) ∧
     (runExportPhase (seccompInit .killProcess)
        ⟨true, true, true, true, true, true⟩).2.2
      = some (seccompExportPfc (seccompInit .killProcess))) ∧
    (runExportPhase (seccompInit .killProcess)
        ⟨false, true, true, true, true, true⟩).1 ≠ 0 :=
  ⟨(export_pipeline_integrity _ _).1 (by decide),
   (export_pipeline_integrity _ _).2.2 (Or.inl rfl)⟩

/-- Claim C9: the single `open` (resp. `openat`) allow rule matches iff
the 32-bit flags argument (argument 1, resp. 2) has no bit set outside
`O_RDONLY | O_BINARY | O_CLOEXEC | O_PATH | O_DIRECTORY`; in particular
an invocation with the `O_WRONLY` bit (bit 0), the `O_RDWR` bit (bit 1)
or the `O_CREAT` bit (bit 6) set matches no rule and receives the
default kill-process action. -/
theorem open_flags_policy (args : Nat → Nat) :
    (ruleMatches openRule "open" args = true ↔
      ∀ i, (args 1 % 2 ^ 32).testBit i = true →
        (O_RDONLY ||| O_BINARY ||| O_CLOEXEC ||| O_PATH
          ||| O_DIRECTORY).testBit i = true)
    ∧ (ruleMatches openatRule "openat" args = true ↔
      ∀ i, (args 2 % 2 ^ 32).testBit i = true →
        (O_RDONLY ||| O_BINARY ||| O_CLOEXEC ||| O_PATH
          ||| O_DIRECTORY).testBit i = true)
    ∧ ((args 1).testBit 0 = true ∨ (args 1).testBit 1 = true ∨
        (args 1).testBit 6 = true →
      emacsAction "open" args = .killProcess)
    ∧ ((args 2).testBit 0 = true ∨ (args 2).testBit 1 = true ∨
        (args 2).testBit 6 = true →
      emacsAction "openat" args = .killProcess) := by
  have hiff1 : ruleMatches openRule "open" args
      = ((args 1 % 2 ^ 32) &&&
          (compl32 (O_RDONLY ||| O_BINARY ||| O_CLOEXEC ||| O_PATH
            ||| O_DIRECTORY) % 2 ^ 32) == 0) := by
    simp only [ruleMatches, openRule, List.all_cons, List.all_nil,
      evalCmp_masked32]
    simp
  have hiff2 : ruleMatches openatRule "openat" args
      = ((args 2 % 2 ^ 32) &&&
          (compl32 (O_RDONLY ||| O_BINARY ||| O_CLOEXEC ||| O_PATH
            ||| O_DIRECTORY) % 2 ^ 32) == 0) := by
    simp only [ruleMatches, openatRule, List.all_cons, List.all_nil,
      evalCmp_masked32]
    simp
  refine ⟨?_, ?_, ?_, ?_⟩
  · rw [hiff1, beq_iff_eq]
    exact masked32_zero_iff (args 1) _
  · rw [hiff2, beq_iff_eq]
    exact masked32_zero_iff (args 2) _
  · intro h
    have m : ruleMatches openRule "open" args = false := by
      rcases h with h | h | h
      · have e : evalCmp args (cmp32 1 .maskedEq
            (compl32 (O_RDONLY ||| O_BINARY ||| O_CLOEXEC ||| O_PATH
              ||| O_DIRECTORY)) 0) = false :=
          evalCmp_masked32_false (by norm_num) h (by decide)
        simp only [ruleMatches, openRule, List.all_cons, List.all_nil, e]
        simp
      · have e : evalCmp args (cmp32 1 .maskedEq
            (compl32 (O_RDONLY ||| O_BINARY ||| O_CLOEXEC ||| O_PATH
              ||| O_DIRECTORY)) 0) = false :=
          evalCmp_masked32_false (by norm_num) h (by decide)
        simp only [ruleMatches, openRule, List.all_cons, List.all_nil, e]
        simp
      · have e : evalCmp args (cmp32 1 .maskedEq
            (compl32 (O_RDONLY ||| O_BINARY ||| O_CLOEXEC ||| O_PATH
              ||| O_DIRECTORY)) 0) = false :=
          evalCmp_masked32_false (by norm_num) h (by decide)
        simp only [ruleMatches, openRule, List.all_cons, List.all_nil, e]
        simp
    show policyAction emacsRules emacsDefault "open" args = Action.killProcess
    rw [policyAction_rulesFor]
    have hr : rulesFor "open" emacsRules = [openRule] := by decide
    rw [hr, policyAction_cons_skip m]
    rfl
  · intro h
    have m : ruleMatches openatRule "openat" args = false := by
      rcases h with h | h | h
      · have e : evalCmp args (cmp32 2 .maskedEq
            (compl32 (O_RDONLY ||| O_BINARY ||| O_CLOEXEC ||| O_PATH
              ||| O_DIRECTORY)) 0) = false :=
          evalCmp_masked32_false (by norm_num) h (by decide)
        simp only [ruleMatches, openatRule, List.all_cons, List.all_nil, e]
        simp
      · have e : evalCmp args (cmp32 2 .maskedEq
            (compl32 (O_RDONLY ||| O_BINARY ||| O_CLOEXEC ||| O_PATH
              ||| O_DIRECTORY)) 0) = false :=
          evalCmp_masked32_false (by norm_num) h (by decide)
        simp only [ruleMatches, openatRule, List.all_cons, List.all_nil, e]
        simp
      · have e : evalCmp args (cmp32 2 .maskedEq
            (compl32 (O_RDONLY ||| O_BINARY ||| O_CLOEXEC ||| O_PATH
              ||| O_DIRECTORY)) 0) = false :=
          evalCmp_masked32_false (by norm_num) h (by decide)
        simp only [ruleMatches, openatRule, List.all_cons, List.all_nil, e]
        simp
    show policyAction emacsRules emacsDefault "openat" args
      = Action.killProcess
    rw [policyAction_rulesFor]
    have hr : rulesFor "openat" emacsRules = [openatRule] := by decide
    rw [hr, policyAction_cons_skip m]
    rfl

/-- Witness for C9: flags `O_WRONLY | O_CREAT = 65` is killed for both
`open` and `openat`. -/
theorem open_flags_policy_witness :
    emacsAction "open" (fun _ => 65) = .killProcess ∧
    emacsAction "openat" (fun _ => 65) = .killProcess :=
  ⟨(open_flags_policy (fun _ => 65)).2.2.1 (Or.inl (by decide)),
   (open_flags_policy (fun _ => 65)).2.2.2 (Or.inl (by decide))⟩

/-- Claim C10: `clock_gettime` is allowed exactly when its first
argument (in 32 bits) equals `CLOCK_REALTIME`, any other clock id falls
to the default kill-process action, and `time` and `gettimeofday` are
allowed unconditionally. -/
theorem clock_time_policy (args : Nat → Nat) :
    (ruleMatches clockGettimeRule "clock_gettime" args = true ↔
      args 0 % 2 ^ 32 = CLOCK_REALTIME)
    ∧ (args 0 % 2 ^ 32 = CLOCK_REALTIME →
        emacsAction "clock_gettime" args = .allow)
    ∧ (args 0 % 2 ^ 32 ≠ CLOCK_REALTIME →
        emacsAction "clock_gettime" args = .killProcess)
    ∧ emacsAction "time" args = .allow
    ∧ emacsAction "gettimeofday" args = .allow := by
  have he : evalCmp args (cmp32 0 .eq CLOCK_REALTIME 0)
      = (args 0 % 2 ^ 32 == CLOCK_REALTIME) := by
    show (args 0 % 2 ^ 32 == CLOCK_REALTIME % 2 ^ 32) = _
    norm_num [CLOCK_REALTIME]
  have hiff : ruleMatches clockGettimeRule "clock_gettime" args
      = (args 0 % 2 ^ 32 == CLOCK_REALTIME) := by
    simp only [ruleMatches, clockGettimeRule, List.all_cons, List.all_nil, he]
    simp
  have hrC : rulesFor "clock_gettime" emacsRules = [clockGettimeRule] := by
    decide
  refine ⟨?_, ?_, ?_, ?_, ?_⟩
  · rw [hiff]
    exact beq_iff_eq
  · intro h
    have m : ruleMatches clockGettimeRule "clock_gettime" args = true := by
      rw [hiff]
      exact beq_iff_eq.mpr h
    show policyAction emacsRules emacsDefault "clock_gettime" args
      = Action.allow
    rw [policyAction_rulesFor, hrC, policyAction_cons_match m]
    rfl
  · intro h
    have m : ruleMatches clockGettimeRule "clock_gettime" args = false := by
      rw [hiff]
      exact beq_eq_false_iff_ne.mpr h
    show policyAction emacsRules emacsDefault "clock_gettime" args
      = Action.killProcess
    rw [policyAction_rulesFor, hrC, policyAction_cons_skip m]
    rfl
  · have m : ruleMatches ⟨.allow, "time", []⟩ "time" args = true := by
      simp [ruleMatches]
    show policyAction emacsRules emacsDefault "time" args = Action.allow
    rw [policyAction_rulesFor]
    have hr : rulesFor "time" emacsRules = [⟨.allow, "time", []⟩] := by decide
    rw [hr, policyAction_cons_match m]
  · have m : ruleMatches ⟨.allow, "gettimeofday", []⟩ "gettimeofday" args
        = true := by
      simp [ruleMatches]
    show policyAction emacsRules emacsDefault "gettimeofday" args
      = Action.allow
    rw [policyAction_rulesFor]
    have hr : rulesFor "gettimeofday" emacsRules
        = [⟨.allow, "gettimeofday", []⟩] := by decide
    rw [hr, policyAction_cons_match m]

/-- Witness for C10: clock id 0 (`CLOCK_REALTIME`) is allowed, clock id
1 (`CLOCK_MONOTONIC`) is killed. -/
theorem clock_time_policy_witness :
    emacsAction "clock_gettime" (fun _ => 0) = .allow ∧
    emacsAction "clock_gettime" (fun _ => 1) = .killProcess :=
  ⟨(clock_time_policy (fun _ => 0)).2.1 (by decide),
   (clock_time_policy (fun _ => 1)).2.2.1 (by decide)⟩

end SeccompFilter
